import Mathlib

/-!
Shallow embedding of the bundle-analysis engine of the repository
(coverage classifier, coverage report builder and session state machine from
`src/tools/coverage.ts`; chain detector and optimization heuristics from
`src/tools/bundleAnalysis.ts`), together with theorems settling the spec
claims about them.

Numeric conventions: JavaScript numbers are modelled as `ℚ` where fractional
arithmetic occurs (timings, percentages) and as `ℤ`/`ℕ` where the code only
ever holds integers (byte counts, lengths).  Fallible external calls are
modelled as `Except String` values supplied by the caller; the browser URL
parser is an explicit `String → Option URLParts` parameter.
-/

/-- JavaScript `String.prototype.includes`: substring test. -/
def hasSubstr (s pat : String) : Bool :=
  (s.toList.tails).any (fun t => pat.toList.isPrefixOf t)

/-- JavaScript `String.prototype.toLowerCase`, character by character. -/
def jsToLower (s : String) : String :=
  ⟨s.toList.map Char.toLower⟩

/-- JavaScript `String.prototype.startsWith`. -/
def jsStartsWith (s pre : String) : Bool :=
  pre.toList.isPrefixOf s.toList

/-- The result of a successful `new URL(...)`: the fields the code reads. -/
structure URLParts where
  origin : String
  pathname : String
deriving DecidableEq

/-- The vendor-path pattern table from `isThirdParty` (`coverage.ts`). -/
def thirdPartyPatterns : List String :=
  ["/vendor", "/vendors", "/node_modules", "/npm", "/lib/", "/libraries",
   "/deps", "/dependencies", "vendor.", "vendors.", "vendor-", "vendors-",
   ".vendor.", ".vendors.", "chunk.vendors", "chunk.libs"]

/-- Function `isThirdParty(url, pageUrl)` from `coverage.ts`.  `parse` stands for the
platform URL parser (`new URL`), returning `none` where the constructor would
throw; the `try/catch` of the source is the `Option` match. -/
def isThirdParty (parse : String → Option URLParts) (url pageUrl : String) : Bool :=
  if jsStartsWith url "data:" || jsStartsWith url "blob:" then
    false
  else
    match parse url, parse pageUrl with
    | some urlObj, some pageUrlObj =>
      if urlObj.origin ≠ pageUrlObj.origin then
        true
      else
        thirdPartyPatterns.any (fun pattern => hasSubstr (jsToLower urlObj.pathname) pattern)
    | _, _ => false

/-- A raw coverage record as delivered by the coverage provider
(`CoverageEntry` of puppeteer): source text and executed byte ranges. -/
structure RawCoverageEntry where
  url : String
  text : String
  ranges : List (ℤ × ℤ)
deriving DecidableEq

/-- Interface `CoverageReportEntry` from `coverage.ts`. -/
structure CoverageReportEntry where
  url : String
  totalBytes : ℕ
  usedBytes : ℤ
  unusedBytes : ℤ
  usagePercent : ℚ
  isExternal : Bool
deriving DecidableEq

/-- The `usedBytes` accumulation loop of `calculateCoverageEntry`:
`usedBytes += range.end - range.start` over the ranges. -/
def sumRangeBytes : List (ℤ × ℤ) → ℤ
  | [] => 0
  | r :: rest => (r.2 - r.1) + sumRangeBytes rest

/-- Function `calculateCoverageEntry(entry, pageUrl)` from `coverage.ts`. -/
def calculateCoverageEntry (parse : String → Option URLParts)
    (entry : RawCoverageEntry) (pageUrl : String) : CoverageReportEntry :=
  let totalBytes := entry.text.length
  let usedBytes := sumRangeBytes entry.ranges
  let unusedBytes := (totalBytes : ℤ) - usedBytes
  let usagePercent : ℚ := if 0 < totalBytes then ((usedBytes : ℚ) / (totalBytes : ℚ)) * 100 else 0
  { url := entry.url
    totalBytes := totalBytes
    usedBytes := usedBytes
    unusedBytes := unusedBytes
    usagePercent := usagePercent
    isExternal := isThirdParty parse entry.url pageUrl }

/-- Pagination request as passed by the tools (`PaginationOptions`). -/
structure PaginationOptions where
  pageSize : ℕ
  pageIdx : ℕ
deriving DecidableEq

/-- Result of the pagination utility. -/
structure PaginationResult (α : Type) where
  items : List α
  startIndex : ℕ
  endIndex : ℕ
  currentPage : ℕ
  totalPages : ℕ
  hasNextPage : Bool
  hasPreviousPage : Bool

/-- Modelled from the spec: the generic windowing utility `paginate` lives in
`src/utils/pagination.ts`, which is not among the provided sources.  Per spec
section 4.2: `totalPages = ceil(len/pageSize)` with a minimum of 1, an
out-of-range page index clamps to the last valid page, indices are 0-based
half-open internally. -/
def paginate {α : Type} (items : List α) (opts : PaginationOptions) : PaginationResult α :=
  let totalPages := max 1 ((items.length + opts.pageSize - 1) / opts.pageSize)
  let pageIdx := min opts.pageIdx (totalPages - 1)
  let startIndex := pageIdx * opts.pageSize
  let endIndex := min (startIndex + opts.pageSize) items.length
  { items := (items.drop startIndex).take opts.pageSize
    startIndex := startIndex
    endIndex := endIndex
    currentPage := pageIdx
    totalPages := totalPages
    hasNextPage := decide (pageIdx + 1 < totalPages)
    hasPreviousPage := decide (0 < pageIdx) }

/-- Per-type pagination metadata of a `CoverageReport` (`coverage.ts`). -/
structure CoveragePaginationMeta where
  showing : String
  currentPage : ℕ
  totalPages : ℕ
  hasNextPage : Bool
  hasPreviousPage : Bool
deriving DecidableEq

/-- The `summary` field of a `CoverageReport` (`coverage.ts`). -/
structure CoverageSummary where
  totalResources : ℕ
  totalBytes : ℕ
  usedBytes : ℤ
  unusedBytes : ℤ
  overallUsagePercent : ℚ
deriving DecidableEq

/-- Interface `CoverageReport` from `coverage.ts`. -/
structure CoverageReport where
  jsCoverage : List CoverageReportEntry
  cssCoverage : List CoverageReportEntry
  summary : CoverageSummary
  jsPagination : Option CoveragePaginationMeta
  cssPagination : Option CoveragePaginationMeta
deriving DecidableEq

/-- The `showing` string built in `stopCoverageAndAppendOutput`,
e.g. `Showing 1-5 of 7 JS files (Page 1 of 2)`. -/
def showingString {α : Type} (pr : PaginationResult α) (total : ℕ) (kind : String) : String :=
  let a := toString (pr.startIndex + 1)
  let b := toString pr.endIndex
  let c := toString total
  let d := toString (pr.currentPage + 1)
  let e := toString pr.totalPages
  "Showing " ++ a ++ "-" ++ b ++ " of " ++ c ++ " " ++ kind ++
    " files (Page " ++ d ++ " of " ++ e ++ ")"

/-- Comparator of the `jsCoverage.sort((a, b) => b.unusedBytes - a.unusedBytes)`
call: unused bytes descending.  JavaScript `Array.prototype.sort` is stable. -/
def unusedBytesDescending (a b : CoverageReportEntry) : Prop :=
  b.unusedBytes ≤ a.unusedBytes

instance : DecidableRel unusedBytesDescending :=
  fun a b => inferInstanceAs (Decidable (b.unusedBytes ≤ a.unusedBytes))

/-- The report construction in the `try` block of `stopCoverageAndAppendOutput`
(`coverage.ts`): classify, sort both lists by unused bytes descending, compute
the summary over all (pre-pagination) entries, and paginate each list. -/
def buildCoverageReport (parse : String → Option URLParts) (pageUrl : String)
    (jsRaw cssRaw : List RawCoverageEntry) (pagination : PaginationOptions) : CoverageReport :=
  let jsCoverage := List.insertionSort unusedBytesDescending
    (jsRaw.map (fun e => calculateCoverageEntry parse e pageUrl))
  let cssCoverage := List.insertionSort unusedBytesDescending
    (cssRaw.map (fun e => calculateCoverageEntry parse e pageUrl))
  let allEntries := jsCoverage ++ cssCoverage
  let totalBytes : ℕ := (allEntries.map (fun e => e.totalBytes)).sum
  let usedBytes : ℤ := (allEntries.map (fun e => e.usedBytes)).sum
  let unusedBytes : ℤ := (allEntries.map (fun e => e.unusedBytes)).sum
  let overallUsagePercent : ℚ :=
    if 0 < totalBytes then ((usedBytes : ℚ) / (totalBytes : ℚ)) * 100 else 0
  let jsPaginationResult := paginate jsCoverage pagination
  let cssPaginationResult := paginate cssCoverage pagination
  { jsCoverage := jsPaginationResult.items
    cssCoverage := cssPaginationResult.items
    summary :=
      { totalResources := allEntries.length
        totalBytes := totalBytes
        usedBytes := usedBytes
        unusedBytes := unusedBytes
        overallUsagePercent := overallUsagePercent }
    jsPagination :=
      if 0 < jsCoverage.length then
        some { showing := showingString jsPaginationResult jsCoverage.length "JS"
               currentPage := jsPaginationResult.currentPage
               totalPages := jsPaginationResult.totalPages
               hasNextPage := jsPaginationResult.hasNextPage
               hasPreviousPage := jsPaginationResult.hasPreviousPage }
      else none
    cssPagination :=
      if 0 < cssCoverage.length then
        some { showing := showingString cssPaginationResult cssCoverage.length "CSS"
               currentPage := cssPaginationResult.currentPage
               totalPages := cssPaginationResult.totalPages
               hasNextPage := cssPaginationResult.hasNextPage
               hasPreviousPage := cssPaginationResult.hasPreviousPage }
      else none }

/-- Session coverage options `{includeJS, includeCSS}`. -/
structure CoverageOptions where
  includeJS : Bool
  includeCSS : Bool
deriving DecidableEq

/-- The session-scoped mutable state the coverage tools access through the
tool `Context` accessors (`isRunningCoverage`, `coverageOptions`,
`lastCoverageReport`). -/
structure SessionState where
  isRunningCoverage : Bool
  coverageOptions : CoverageOptions
  lastCoverageReport : Option CoverageReport
deriving DecidableEq

/-- One `response.appendResponseLine` call.  Plain messages are `text`;
the single call that appends `formatCoverageReport(report)` is modelled as
`report`, keeping the computed report value and eliding the purely
presentational markdown rendering (out of the core scope per the spec). -/
inductive OutLine where
  | text (s : String)
  | report (r : CoverageReport)
deriving DecidableEq

/-- Calls made to the browser instrumentation provider (`page.coverage`). -/
inductive ProviderCall where
  | startJS
  | startCSS
  | stopJS
  | stopCSS
deriving DecidableEq

/-- The external world at `coverage_stop` time: the page URL and the results
of the two provider stop calls (`Except.error` models a thrown promise). -/
structure StopProvider where
  pageUrl : String
  jsStop : Except String (List RawCoverageEntry)
  cssStop : Except String (List RawCoverageEntry)

/-- The data-acquisition part of the `try` block of
`stopCoverageAndAppendOutput`: `stopJSCoverage` is awaited first when JS is
enabled, then `stopCSSCoverage` when CSS is enabled; a throw aborts the rest
of the block.  Returns the collected raw entries (or the thrown error) and
the provider calls that were issued. -/
def collectEntries (options : CoverageOptions) (p : StopProvider) :
    Except String (List RawCoverageEntry × List RawCoverageEntry) × List ProviderCall :=
  if options.includeJS then
    match p.jsStop with
    | .error e => (.error e, [.stopJS])
    | .ok js =>
      if options.includeCSS then
        match p.cssStop with
        | .error e => (.error e, [.stopJS, .stopCSS])
        | .ok css => (.ok (js, css), [.stopJS, .stopCSS])
      else (.ok (js, []), [.stopJS])
  else
    if options.includeCSS then
      match p.cssStop with
      | .error e => (.error e, [.stopCSS])
      | .ok css => (.ok ([], css), [.stopCSS])
    else (.ok ([], []), [])

/-- Function `stopCoverageAndAppendOutput` (`coverage.ts`): builds and appends the
report on success, appends the error description on a throw, and in both
cases (the `finally` block) clears the running flag.  Note that the computed
report is only appended to the response; nothing writes it to
`lastCoverageReport`. -/
def stopCoverageAndAppendOutput (parse : String → Option URLParts)
    (st : SessionState) (p : StopProvider) (pagination : PaginationOptions) :
    SessionState × List OutLine × List ProviderCall :=
  let res := collectEntries st.coverageOptions p
  let lines :=
    match res.1 with
    | .ok (js, css) =>
      [OutLine.text "Coverage tracking has been stopped.",
       OutLine.text "",
       OutLine.report (buildCoverageReport parse p.pageUrl js css pagination)]
    | .error e =>
      [OutLine.text "An error occurred generating the coverage report:",
       OutLine.text e]
  ({ st with isRunningCoverage := false }, lines, res.2)

/-- Parameters of the `coverage_stop` tool (`none` = argument omitted). -/
structure StopParams where
  pageSize : Option ℕ
  pageIdx : Option ℕ
deriving DecidableEq

/-- The response lines of the `coverage_stop` precondition failure. -/
def noCoverageRunningLines : List OutLine :=
  [OutLine.text "Error: No coverage tracking is running.",
   OutLine.text "",
   OutLine.text "To use coverage tracking:",
   OutLine.text "1. First call coverage_start to begin tracking",
   OutLine.text "2. Navigate or interact with the page",
   OutLine.text "3. Then call coverage_stop to get the report"]

/-- The `coverage_stop` tool handler (`coverage.ts`). -/
def stopCoverageHandler (parse : String → Option URLParts) (params : StopParams)
    (st : SessionState) (p : StopProvider) :
    SessionState × List OutLine × List ProviderCall :=
  if st.isRunningCoverage then
    stopCoverageAndAppendOutput parse st p
      { pageSize := params.pageSize.getD 5, pageIdx := params.pageIdx.getD 0 }
  else
    (st, noCoverageRunningLines, [])

/-- Parameters of the `coverage_start` tool (`none` = argument omitted). -/
structure StartParams where
  resetOnNavigation : Option Bool
  includeJS : Option Bool
  includeCSS : Option Bool
deriving DecidableEq

/-- The `coverage_start` rejection message when a session is already running. -/
def alreadyRunningLine : OutLine :=
  OutLine.text "Error: coverage tracking is already running. Use coverage_stop to stop it. Only one coverage session can be running at any given time."

/-- The `coverage_start` tool handler (`coverage.ts`).  `startResult` is the
outcome of awaiting the provider start calls (`Promise.all`); the calls
themselves are issued before the await, so they are reported in both the
success and the failure branch. -/
def startCoverageHandler (params : StartParams) (st : SessionState)
    (startResult : Except String Unit) :
    SessionState × List OutLine × List ProviderCall :=
  if st.isRunningCoverage then
    (st, [alreadyRunningLine], [])
  else
    let includeJS := params.includeJS.getD true
    let includeCSS := params.includeCSS.getD true
    if !includeJS && !includeCSS then
      (st, [OutLine.text "Error: at least one of includeJS or includeCSS must be true."], [])
    else
      let st₁ : SessionState :=
        { st with isRunningCoverage := true
                  coverageOptions := ⟨includeJS, includeCSS⟩ }
      let calls := (if includeJS then [ProviderCall.startJS] else []) ++
        (if includeCSS then [ProviderCall.startCSS] else [])
      match startResult with
      | .ok _ =>
        let types := (if includeJS then ["JavaScript"] else []) ++
          (if includeCSS then ["CSS"] else [])
        (st₁,
         [OutLine.text ("Coverage tracking started for " ++ String.intercalate " and " types ++
            ". Use coverage_stop to stop tracking and get the report.")],
         calls)
      | .error e =>
        ({ st₁ with isRunningCoverage := false },
         [OutLine.text ("Error starting coverage tracking: " ++ e)],
         calls)

/-- The `timing()` data of an HTTP response: `requestTime` is in seconds,
`receiveHeadersEnd` in milliseconds relative to it. -/
structure ResponseTiming where
  requestTime : ℚ
  receiveHeadersEnd : ℚ
deriving DecidableEq

/-- The parts of a puppeteer `HTTPResponse` the code reads: `timing()` (may be
absent) and the parsed `content-length` header (absent header modelled as
`none`). -/
structure HTTPResponseInfo where
  timing : Option ResponseTiming
  contentLength : Option ℕ
deriving DecidableEq

/-- The parts of a puppeteer `HTTPRequest` the code reads. -/
structure HTTPRequestInfo where
  url : String
  resourceType : String
  response : Option HTTPResponseInfo
deriving DecidableEq

/-- Timing extracted from a request by `getRequestTiming`. -/
structure RequestTiming where
  startTimeMs : ℚ
  endTimeMs : ℚ
  sizeBytes : ℕ
deriving DecidableEq

/-- Function `getRequestTiming(request)` from `bundleAnalysis.ts`: `none` when the
request has no response or the response has no timing. -/
def getRequestTiming (request : HTTPRequestInfo) : Option RequestTiming :=
  match request.response with
  | none => none
  | some response =>
    match response.timing with
    | none => none
    | some timing =>
      let startTimeMs := timing.requestTime * 1000
      let endTimeMs := startTimeMs + timing.receiveHeadersEnd
      let sizeBytes := match response.contentLength with
        | some n => n
        | none => 0
      some ⟨startTimeMs, endTimeMs, sizeBytes⟩

/-- An element of the `scriptsWithTiming` array of `detectBundleChains`. -/
structure ScriptTiming where
  url : String
  startTimeMs : ℚ
  endTimeMs : ℚ
  sizeBytes : ℕ
deriving DecidableEq, Inhabited

/-- Interface `BundleChainNode` from `bundleAnalysis.ts`; the `children` list has at
most one element (linear chains). -/
inductive BundleChainNode where
  | node (url : String) (sizeBytes : ℕ) (startTimeMs endTimeMs loadTimeMs : ℚ)
      (children : List BundleChainNode)

/-- Interface `BundleChain` from `bundleAnalysis.ts`.  Field `root` is `chainNodes[0]`; the
chain-node list is never empty, so the option is always `some` in reachable
states. -/
structure BundleChain where
  depth : ℕ
  totalTimeMs : ℚ
  urls : List String
  root : Option BundleChainNode

/-- Constant `CHAIN_GAP_THRESHOLD_MS` from `bundleAnalysis.ts`. -/
def CHAIN_GAP_THRESHOLD_MS : ℚ := 50

/-- The child-linking loop of `detectBundleChains`
(`chainNodes[i].children = [chainNodes[i + 1]]`), written as a recursion over
the chain scripts: each node's children list holds the next node, the last
node has none. -/
def buildLinkedNodes : List ScriptTiming → Option BundleChainNode
  | [] => none
  | s :: rest =>
    some (.node s.url s.sizeBytes s.startTimeMs s.endTimeMs
      (s.endTimeMs - s.startTimeMs)
      (match buildLinkedNodes rest with
       | some n => [n]
       | none => []))

/-- The `scriptsWithTiming.find(...)` successor search of the chain-growing
`while` loop: the first script (in sorted order) that is not yet used and
starts within the gap threshold after `current` ends. -/
def findNextScript (all : List ScriptTiming) (used : List String)
    (current : ScriptTiming) : Option ScriptTiming :=
  all.find? (fun s =>
    !(used.contains s.url) &&
    decide (current.endTimeMs ≤ s.startTimeMs) &&
    decide (s.startTimeMs ≤ current.endTimeMs + CHAIN_GAP_THRESHOLD_MS))

/-- The chain-growing `while (currentScript)` loop of `detectBundleChains`,
started at `current`: collects the chain scripts in order and records every
visited URL in `usedUrls`.  The source loop terminates because `usedUrls`
strictly grows and successors must be unused; that bound is made explicit
with a fuel argument (callers pass the script-list length, which the chain
length can never exceed). -/
def growChain (all : List ScriptTiming) :
    ℕ → ScriptTiming → List String → List ScriptTiming × List String
  | 0, current, used => ([current], current.url :: used)
  | fuel + 1, current, used =>
    let used' := current.url :: used
    match findNextScript all used' current with
    | some next =>
      let rec' := growChain all fuel next used'
      (current :: rec'.1, rec'.2)
    | none => ([current], used')

/-- The outer `for (const script of scriptsWithTiming)` loop of
`detectBundleChains`: skip scripts whose URL is already used, otherwise grow
a chain and keep it only when it reaches `minChainDepth` nodes and
`minChainTimeMs` total elapsed time (dropped chains still mark their URLs
used). -/
def detectChainsLoop (all : List ScriptTiming) (minChainDepth : ℕ) (minChainTimeMs : ℚ) :
    List ScriptTiming → List String → List BundleChain → List BundleChain × List String
  | [], used, chains => (chains, used)
  | script :: rest, used, chains =>
    if used.contains script.url then
      detectChainsLoop all minChainDepth minChainTimeMs rest used chains
    else
      let grown := growChain all all.length script used
      let chainScripts := grown.1
      let chains' :=
        if minChainDepth ≤ chainScripts.length then
          let totalTimeMs :=
            (chainScripts.getLastD default).endTimeMs - (chainScripts.headD default).startTimeMs
          if minChainTimeMs ≤ totalTimeMs then
            chains ++ [{ depth := chainScripts.length
                         totalTimeMs := totalTimeMs
                         urls := chainScripts.map (fun s => s.url)
                         root := buildLinkedNodes chainScripts }]
          else chains
        else chains
      detectChainsLoop all minChainDepth minChainTimeMs rest grown.2 chains'

/-- The end-time sort of `detectBundleChains`
(`scriptsWithTiming.sort((a, b) => a.endTimeMs - b.endTimeMs)`); JavaScript
`Array.prototype.sort` is stable. -/
def endTimeAscending (a b : ScriptTiming) : Prop :=
  a.endTimeMs ≤ b.endTimeMs

instance : DecidableRel endTimeAscending :=
  fun a b => inferInstanceAs (Decidable (a.endTimeMs ≤ b.endTimeMs))

instance : IsTotal ScriptTiming endTimeAscending :=
  ⟨fun a b => le_total a.endTimeMs b.endTimeMs⟩

instance : IsTrans ScriptTiming endTimeAscending :=
  ⟨fun _ _ _ hab hbc => le_trans hab hbc⟩

/-- The `scriptsWithTiming` list of `detectBundleChains`: script-type requests
with resolvable timing, sorted by end time ascending (stable). -/
def sortedTimedScripts (requests : List HTTPRequestInfo) : List ScriptTiming :=
  let scriptRequests := requests.filter (fun r => r.resourceType == "script")
  let scriptsWithTiming := scriptRequests.filterMap (fun r =>
    (getRequestTiming r).map (fun t => ⟨r.url, t.startTimeMs, t.endTimeMs, t.sizeBytes⟩))
  List.insertionSort endTimeAscending scriptsWithTiming

/-- Function `detectBundleChains(requests, minChainDepth, minChainTimeMs)` from
`bundleAnalysis.ts`. -/
def detectBundleChains (requests : List HTTPRequestInfo)
    (minChainDepth : ℕ) (minChainTimeMs : ℚ) : List BundleChain :=
  let sorted := sortedTimedScripts requests
  (detectChainsLoop sorted minChainDepth minChainTimeMs sorted [] []).1

/-- Migration effort level of a dependency alternative. -/
inductive Effort where
  | low
  | medium
  | high
deriving DecidableEq

/-- Interface `DependencyAlternative` from `bundleAnalysis.ts`. -/
structure DependencyAlternative where
  alternative : String
  sizeSavingsKB : ℕ
  effort : Effort
deriving DecidableEq

/-- Table `DEPENDENCY_ALTERNATIVES` from `bundleAnalysis.ts`, in declaration order
(JavaScript object string keys iterate in insertion order). -/
def DEPENDENCY_ALTERNATIVES : List (String × List DependencyAlternative) :=
  [("moment",
    [⟨"dayjs", 58, .low⟩, ⟨"date-fns", 45, .medium⟩, ⟨"luxon", 30, .medium⟩]),
   ("lodash",
    [⟨"lodash-es (tree-shakeable)", 60, .low⟩,
     ⟨"Native methods + individual imports", 65, .medium⟩]),
   ("underscore",
    [⟨"lodash-es", 15, .low⟩, ⟨"Native methods", 20, .medium⟩]),
   ("jquery",
    [⟨"Native DOM APIs", 85, .high⟩, ⟨"cash-dom", 75, .low⟩]),
   ("axios",
    [⟨"fetch (native)", 12, .medium⟩, ⟨"ky", 8, .low⟩]),
   ("chart.js",
    [⟨"uPlot", 150, .high⟩, ⟨"Chart.js with tree-shaking", 80, .medium⟩]),
   ("react-icons",
    [⟨"Individual icon imports", 100, .low⟩]),
   ("core-js",
    [⟨"Targeted polyfills only", 80, .medium⟩]),
   ("validator",
    [⟨"validator/es (tree-shakeable)", 40, .low⟩]),
   ("numeral",
    [⟨"Intl.NumberFormat (native)", 25, .medium⟩]),
   ("highlight.js",
    [⟨"Prism.js with selected languages", 200, .medium⟩]),
   ("quill",
    [⟨"Tiptap", 100, .high⟩]),
   ("draft-js",
    [⟨"Slate.js", 80, .high⟩]),
   ("antd",
    [⟨"Individual component imports", 300, .medium⟩]),
   ("material-ui",
    [⟨"Individual component imports", 250, .medium⟩])]

/-- Function `detectHeavyDependency(url)` from `bundleAnalysis.ts`: first declared
dependency one of whose filename-boundary patterns occurs in the lowercased
URL. -/
def detectHeavyDependency (url : String) : Option String :=
  let lowerUrl := jsToLower url
  (DEPENDENCY_ALTERNATIVES.map (fun d => d.1)).findSome? (fun dep =>
    let patterns :=
      ["/" ++ dep ++ "/", "/" ++ dep ++ ".", dep ++ ".js", dep ++ ".min.js", dep ++ "-"]
    if patterns.any (fun pattern => hasSubstr lowerUrl pattern) then some dep else none)

/-- Type `Priority` from `bundleAnalysis.ts`. -/
inductive Priority where
  | critical
  | high
  | medium
  | low
deriving DecidableEq

/-- Function `determinePriority(unusedBytes, unusedPercent)` from `bundleAnalysis.ts`:
a strict-threshold ladder. -/
def determinePriority (unusedBytes unusedPercent : ℚ) : Priority :=
  if unusedBytes > 100 * 1024 ∨ unusedPercent > 50 then .critical
  else if unusedBytes > 50 * 1024 ∨ unusedPercent > 30 then .high
  else if unusedBytes > 20 * 1024 ∨ unusedPercent > 20 then .medium
  else .low

/-- Interface `CodeSplitSuggestion` from `bundleAnalysis.ts`. -/
structure CodeSplitSuggestion where
  url : String
  priority : Priority
  totalBytes : ℕ
  usedBytes : ℤ
  unusedBytes : ℤ
  usagePercent : ℚ
  isExternal : Bool
  detectedDependency : Option String
deriving DecidableEq

/-- Map `priorityOrder` from the `suggest_code_splits` handler. -/
def priorityOrder : Priority → ℕ
  | .critical => 0
  | .high => 1
  | .medium => 2
  | .low => 3

/-- The candidate sort comparator of `suggest_code_splits`: priority rank
ascending, ties by unused bytes descending (JavaScript stable sort). -/
def candidateOrder (a b : CodeSplitSuggestion) : Prop :=
  priorityOrder a.priority < priorityOrder b.priority ∨
    (priorityOrder a.priority = priorityOrder b.priority ∧ b.unusedBytes ≤ a.unusedBytes)

instance : DecidableRel candidateOrder := fun a b =>
  inferInstanceAs (Decidable (priorityOrder a.priority < priorityOrder b.priority ∨
    (priorityOrder a.priority = priorityOrder b.priority ∧ b.unusedBytes ≤ a.unusedBytes)))

/-- The candidate filter and ranking of the `suggest_code_splits` handler
(`bundleAnalysis.ts`): keep JS entries with `sizeKB >= minBundleSizeKB` and
`unusedPercent >= minUnusedPercent` (with `unusedPercent = 100 −
usagePercent`), score each, and sort by priority then unused bytes. -/
def codeSplitCandidates (jsCoverage : List CoverageReportEntry)
    (minBundleSizeKB minUnusedPercent : ℚ) : List CodeSplitSuggestion :=
  let unsorted := jsCoverage.filterMap (fun entry =>
    let sizeKB : ℚ := (entry.totalBytes : ℚ) / 1024
    let unusedPercent : ℚ := 100 - entry.usagePercent
    if minBundleSizeKB ≤ sizeKB ∧ minUnusedPercent ≤ unusedPercent then
      some { url := entry.url
             priority := determinePriority (entry.unusedBytes : ℚ) unusedPercent
             totalBytes := entry.totalBytes
             usedBytes := entry.usedBytes
             unusedBytes := entry.unusedBytes
             usagePercent := entry.usagePercent
             isExternal := entry.isExternal
             detectedDependency := detectHeavyDependency entry.url }
    else none)
  List.insertionSort candidateOrder unsorted

/-- The lazy-load candidate filter of `suggest_code_splits`:
`usagePercent < 50 && !isExternal`. -/
def lazyLoadCandidatesOf (candidates : List CodeSplitSuggestion) : List CodeSplitSuggestion :=
  candidates.filter (fun c => decide (c.usagePercent < 50) && !c.isExternal)

/-- The lazy-load advice entries actually emitted by `suggest_code_splits`:
`lazyLoadCandidates.slice(0, 5)` (each element becomes one advice bullet via
`generateLazyLoadAdvice`; the text rendering is presentation and elided). -/
def emittedLazyLoadAdvice (candidates : List CodeSplitSuggestion) : List CodeSplitSuggestion :=
  (lazyLoadCandidatesOf candidates).take 5

/-- The rows of the `All Optimization Opportunities` table actually emitted
by `suggest_code_splits`: `candidates.slice(0, 15)` (each element becomes one
markdown table row; the text rendering is presentation and elided). -/
def emittedOpportunityRows (candidates : List CodeSplitSuggestion) : List CodeSplitSuggestion :=
  candidates.take 15

/-- The `*...and N more opportunities*` trailer of `suggest_code_splits`:
emitted exactly when more than 15 candidates qualify, carrying the count of
the non-emitted remainder. -/
def overflowNote (candidates : List CodeSplitSuggestion) : Option ℕ :=
  if 15 < candidates.length then some (candidates.length - 15) else none

/-! ### Concrete fixtures used by counterexamples and witnesses -/

/-- A small concrete URL parser standing in for `new URL`, resolving two
well-formed URLs and failing on everything else. -/
def sampleParse : String → Option URLParts := fun s =>
  if s = "https://a.com/x.js" then some ⟨"https://a.com", "/x.js"⟩
  else if s = "https://p.com/" then some ⟨"https://p.com", "/"⟩
  else none

/-- A well-formed coverage record: 10 source bytes, executed ranges
`[0,3)` and `[5,7)`. -/
def wRawEntry : RawCoverageEntry :=
  ⟨"https://a.com/x.js", "xxxxxxxxxx", [(0, 3), (5, 7)]⟩

/-- A session with coverage running (JS and CSS enabled, no stored report). -/
def wRunningState : SessionState := ⟨true, ⟨true, true⟩, none⟩

/-- An idle session. -/
def wIdleState : SessionState := ⟨false, ⟨true, true⟩, none⟩

/-- A stop-time provider whose stop calls succeed with empty entry lists. -/
def wStopOk : StopProvider := ⟨"https://p.com/", .ok [], .ok []⟩

/-- A stop-time provider whose JS stop call throws. -/
def wStopErr : StopProvider := ⟨"https://p.com/", .error "boom", .ok []⟩

/-- A `coverage_start` invocation with all arguments omitted. -/
def wStartParams : StartParams := ⟨none, none, none⟩

/-- A `coverage_stop` invocation with all arguments omitted. -/
def wStopParams : StopParams := ⟨none, none⟩

/-- Script request `a`: starts at 0ms, ends at 100ms. -/
def chainReqA : HTTPRequestInfo := ⟨"a", "script", some ⟨some ⟨0, 100⟩, some 50000⟩⟩

/-- Script request `b`: starts at 110ms (gap 10ms after `a`), ends at 250ms
(`requestTime` 0.11s, `receiveHeadersEnd` 140ms). -/
def chainReqB10 : HTTPRequestInfo := ⟨"b", "script", some ⟨some ⟨11/100, 140⟩, some 80000⟩⟩

/-- Script request `b`: starts at 160ms (gap 60ms after `a`), ends at 250ms. -/
def chainReqB60 : HTTPRequestInfo := ⟨"b", "script", some ⟨some ⟨16/100, 90⟩, some 80000⟩⟩

/-- Script `pa`: starts at 0ms, ends at 100ms. -/
def permReqA : HTTPRequestInfo := ⟨"pa", "script", some ⟨some ⟨0, 100⟩, some 10⟩⟩

/-- Script `pb`: also starts at 0ms and ends at 100ms (an end-time tie
with `pa`). -/
def permReqB : HTTPRequestInfo := ⟨"pb", "script", some ⟨some ⟨0, 100⟩, some 10⟩⟩

/-- Script `pc`: starts at 110ms, ends at 300ms — a chain successor for
whichever of `pa`/`pb` is processed first. -/
def permReqC : HTTPRequestInfo := ⟨"pc", "script", some ⟨some ⟨11/100, 190⟩, some 10⟩⟩

/-- Sixteen identical qualifying JS coverage entries (100KB each, 0 percent
used) — more optimization opportunities than the output caps. -/
def wManyEntries : List CoverageReportEntry :=
  List.replicate 16 ⟨"u", 102400, 0, 102400, 0, false⟩

/-! ### Theorems -/

/-- C1: the claim says each successful `coverage_stop` stores its newly
computed report in the session's last-coverage-report slot.  The code never
writes that slot: for every parser, parameters, session state and provider
outcome, `coverage_stop` leaves `lastCoverageReport` exactly as it was (the
report is only rendered into the response), so a subsequent
`getLastCoverageReport` still returns the previous value. -/
theorem stopCoverage_never_stores_report (parse : String → Option URLParts)
    (params : StopParams) (st : SessionState) (p : StopProvider) :
    (stopCoverageHandler parse params st p).1.lastCoverageReport = st.lastCoverageReport := by
  unfold stopCoverageHandler stopCoverageAndAppendOutput
  split <;> rfl

/-- C2 (counterexample): a bundle with exactly 100KB unused and exactly 50
percent unused is not assigned priority `critical`: both `critical`
comparisons of `determinePriority` are strict. -/
theorem determinePriority_exact_boundary_not_critical :
    determinePriority 102400 50 ≠ Priority.critical := by
  norm_num [determinePriority]
  decide

/-- C2 (amended): at exactly 100KB unused and exactly 50 percent unused,
`determinePriority` falls through the strict `critical` thresholds and
returns `high` (102400 > 50*1024). -/
theorem determinePriority_exact_boundary_is_high :
    determinePriority 102400 50 = Priority.high := by
  norm_num [determinePriority]

/-- C8: `detectHeavyDependency` resolves `lodash` for a URL ending in
`/lodash.js` and for a `node_modules/lodash/lodash.js` URL, and resolves
nothing for `/my-lodashthing.js` (the filename-boundary patterns reject the
embedded name). -/
theorem detectHeavyDependency_lodash_boundaries :
    detectHeavyDependency "https://example.com/lodash.js" = some "lodash"
    ∧ detectHeavyDependency "https://example.com/node_modules/lodash/lodash.js" = some "lodash"
    ∧ detectHeavyDependency "https://example.com/my-lodashthing.js" = none := by
  refine ⟨by decide, by decide, by decide⟩

/-- C3: the coverage-session state machine.  `coverage_start` on a running
session changes nothing, issues no instrumentation calls and reports the
rejection; `coverage_stop` on an idle session changes nothing and issues no
stop calls; and a `coverage_stop` that reaches report computation clears the
running flag on every exit path — including when the computation throws, in
which case the caller gets the error description lines and no report value. -/
theorem coverage_state_machine
    (parse : String → Option URLParts) (sp : StartParams) (pp : StopParams)
    (st₁ st₂ : SessionState) (startResult : Except String Unit)
    (p perr : StopProvider) (e : String)
    (h₁ : st₁.isRunningCoverage = true)
    (h₂ : st₂.isRunningCoverage = false)
    (hjs : st₁.coverageOptions.includeJS = true)
    (herr : perr.jsStop = Except.error e) :
    (startCoverageHandler sp st₁ startResult).1 = st₁
    ∧ (startCoverageHandler sp st₁ startResult).2.1 = [alreadyRunningLine]
    ∧ (startCoverageHandler sp st₁ startResult).2.2 = []
    ∧ (stopCoverageHandler parse pp st₂ p).1 = st₂
    ∧ (stopCoverageHandler parse pp st₂ p).2.2 = []
    ∧ (stopCoverageHandler parse pp st₁ p).1.isRunningCoverage = false
    ∧ (stopCoverageHandler parse pp st₁ perr).1.isRunningCoverage = false
    ∧ (stopCoverageHandler parse pp st₁ perr).2.1 =
        [OutLine.text "An error occurred generating the coverage report:", OutLine.text e]
    ∧ (∀ r, OutLine.report r ∉ (stopCoverageHandler parse pp st₁ perr).2.1) := by
  refine ⟨?_, ?_, ?_, ?_, ?_, ?_, ?_, ?_, ?_⟩
  · simp [startCoverageHandler, h₁]
  · simp [startCoverageHandler, h₁]
  · simp [startCoverageHandler, h₁]
  · simp [stopCoverageHandler, h₂]
  · simp [stopCoverageHandler, h₂]
  · simp [stopCoverageHandler, stopCoverageAndAppendOutput, h₁]
  · simp [stopCoverageHandler, stopCoverageAndAppendOutput, h₁]
  · simp [stopCoverageHandler, stopCoverageAndAppendOutput, collectEntries, h₁, hjs, herr]
  · intro r
    simp [stopCoverageHandler, stopCoverageAndAppendOutput, collectEntries, h₁, hjs, herr]

/-- C3 witness: the state machine theorem applied to a concrete running
session, a concrete idle session, a succeeding provider and a throwing
provider. -/
theorem coverage_state_machine_witness :
    (startCoverageHandler wStartParams wRunningState (Except.ok ())).1 = wRunningState
    ∧ (stopCoverageHandler sampleParse wStopParams wIdleState wStopOk).1 = wIdleState
    ∧ (stopCoverageHandler sampleParse wStopParams wRunningState wStopOk).1.isRunningCoverage = false
    ∧ (stopCoverageHandler sampleParse wStopParams wRunningState wStopErr).1.isRunningCoverage = false
    ∧ (stopCoverageHandler sampleParse wStopParams wRunningState wStopErr).2.1 =
        [OutLine.text "An error occurred generating the coverage report:", OutLine.text "boom"] := by
  have h := coverage_state_machine sampleParse wStartParams wStopParams
    wRunningState wIdleState (Except.ok ()) wStopOk wStopErr "boom" rfl rfl rfl rfl
  exact ⟨h.1, h.2.2.2.1, h.2.2.2.2.2.1, h.2.2.2.2.2.2.1, h.2.2.2.2.2.2.2.1⟩

/-- C6: `isThirdParty` is a total function (it is defined for every pair of
strings and, being a Lean function, cannot throw); it returns `false` for
`data:`/`blob:` URLs, `false` whenever either URL fails to parse, and `true`
whenever both URLs parse with differing origins. -/
theorem isThirdParty_fail_safe (parse : String → Option URLParts) (url pageUrl : String) :
    ((jsStartsWith url "data:" = true ∨ jsStartsWith url "blob:" = true) →
      isThirdParty parse url pageUrl = false)
    ∧ (jsStartsWith url "data:" = false → jsStartsWith url "blob:" = false →
      (parse url = none ∨ parse pageUrl = none) →
      isThirdParty parse url pageUrl = false)
    ∧ (∀ u v, jsStartsWith url "data:" = false → jsStartsWith url "blob:" = false →
      parse url = some u → parse pageUrl = some v → u.origin ≠ v.origin →
      isThirdParty parse url pageUrl = true) := by
  refine ⟨?_, ?_, ?_⟩
  · intro h
    rcases h with h | h <;> simp [isThirdParty, h]
  · intro hd hb hp
    rcases hp with hp | hp <;> simp [isThirdParty, hd, hb, hp]
  · intro u v hd hb hu hv hne
    simp [isThirdParty, hd, hb, hu, hv, hne]

/-- C6 witness: the fail-safe classification theorem applied at a `data:`
URL, at an unparseable URL, and at a parseable cross-origin URL. -/
theorem isThirdParty_fail_safe_witness :
    isThirdParty sampleParse "data:text/plain,x" "https://p.com/" = false
    ∧ isThirdParty sampleParse "%%%" "https://p.com/" = false
    ∧ isThirdParty sampleParse "https://a.com/x.js" "https://p.com/" = true := by
  refine ⟨?_, ?_, ?_⟩
  · exact (isThirdParty_fail_safe sampleParse "data:text/plain,x" "https://p.com/").1
      (Or.inl (by decide))
  · exact (isThirdParty_fail_safe sampleParse "%%%" "https://p.com/").2.1
      (by decide) (by decide) (Or.inl (by decide))
  · exact (isThirdParty_fail_safe sampleParse "https://a.com/x.js" "https://p.com/").2.2
      ⟨"https://a.com", "/x.js"⟩ ⟨"https://p.com", "/"⟩
      (by decide) (by decide) (by decide) (by decide) (by decide)

/-- Each well-formed range contributes a nonnegative byte count. -/
theorem sumRangeBytes_nonneg (l : List (ℤ × ℤ)) (hwf : ∀ r ∈ l, r.1 ≤ r.2) :
    0 ≤ sumRangeBytes l := by
  induction l with
  | nil => simp [sumRangeBytes]
  | cons r rest ih =>
    have h1 : r.1 ≤ r.2 := hwf r (List.mem_cons_self r rest)
    have h2 : 0 ≤ sumRangeBytes rest := ih (fun x hx => hwf x (List.mem_cons_of_mem r hx))
    simp only [sumRangeBytes]
    omega

/-- Ordered, pairwise-disjoint ranges lying in `[lo, hi]` cover at most
`hi - lo` bytes. -/
theorem sumRangeBytes_le (hi : ℤ) :
    ∀ l : List (ℤ × ℤ), l.Chain' (fun r₁ r₂ => r₁.2 ≤ r₂.1) →
      (∀ r ∈ l, r.1 ≤ r.2) → (∀ r ∈ l, r.2 ≤ hi) →
      ∀ lo : ℤ, (∀ r ∈ l.head?, lo ≤ r.1) → lo ≤ hi →
      sumRangeBytes l ≤ hi - lo := by
  intro l
  induction l with
  | nil =>
    intro _ _ _ lo _ hlohi
    simp [sumRangeBytes]
    omega
  | cons r rest ih =>
    intro hord hwf hhi lo hlo hlohi
    rw [List.chain'_cons'] at hord
    have hr2 : r.2 ≤ hi := hhi r (List.mem_cons_self r rest)
    have hr12 : r.1 ≤ r.2 := hwf r (List.mem_cons_self r rest)
    have hlor : lo ≤ r.1 := hlo r rfl
    have hrest : sumRangeBytes rest ≤ hi - r.2 :=
      ih hord.2 (fun x hx => hwf x (List.mem_cons_of_mem r hx))
        (fun x hx => hhi x (List.mem_cons_of_mem r hx)) r.2
        (fun x hx => hord.1 x hx) hr2
    simp only [sumRangeBytes]
    omega

/-- C5: for a coverage record whose executed ranges are ordered,
pairwise-disjoint half-open intervals inside `[0, sourceLength]`, the entry
computed by `calculateCoverageEntry` satisfies
`usedBytes + unusedBytes = totalBytes` and `0 ≤ usagePercent ≤ 100`. -/
theorem calculateCoverageEntry_invariant
    (parse : String → Option URLParts) (entry : RawCoverageEntry) (pageUrl : String)
    (hord : entry.ranges.Chain' (fun r₁ r₂ => r₁.2 ≤ r₂.1))
    (hwf : ∀ r ∈ entry.ranges, r.1 ≤ r.2)
    (hlo : ∀ r ∈ entry.ranges, 0 ≤ r.1)
    (hhi : ∀ r ∈ entry.ranges, r.2 ≤ (entry.text.length : ℤ)) :
    (calculateCoverageEntry parse entry pageUrl).usedBytes
      + (calculateCoverageEntry parse entry pageUrl).unusedBytes
      = ((calculateCoverageEntry parse entry pageUrl).totalBytes : ℤ)
    ∧ 0 ≤ (calculateCoverageEntry parse entry pageUrl).usagePercent
    ∧ (calculateCoverageEntry parse entry pageUrl).usagePercent ≤ 100 := by
  have hused0 : 0 ≤ sumRangeBytes entry.ranges := sumRangeBytes_nonneg entry.ranges hwf
  have husedle : sumRangeBytes entry.ranges ≤ (entry.text.length : ℤ) := by
    have := sumRangeBytes_le (entry.text.length : ℤ) entry.ranges hord hwf hhi 0
      (fun r hr => hlo r (List.mem_of_mem_head? hr))
      (by positivity)
    omega
  refine ⟨by simp [calculateCoverageEntry], ?_, ?_⟩
  · simp only [calculateCoverageEntry]
    split
    · have h0 : (0:ℚ) ≤ (sumRangeBytes entry.ranges : ℚ) := by exact_mod_cast hused0
      positivity
    · simp
  · simp only [calculateCoverageEntry]
    split
    · rename_i hpos
      have htot : (0:ℚ) < (entry.text.length : ℚ) := by exact_mod_cast hpos
      have hle : (sumRangeBytes entry.ranges : ℚ) ≤ (entry.text.length : ℚ) := by
        exact_mod_cast husedle
      have hdiv : (sumRangeBytes entry.ranges : ℚ) / (entry.text.length : ℚ) ≤ 1 :=
        (div_le_one htot).mpr hle
      calc (sumRangeBytes entry.ranges : ℚ) / (entry.text.length : ℚ) * 100
      _ ≤ 1 * 100 := by
        exact mul_le_mul_of_nonneg_right hdiv (by norm_num)
      _ = 100 := by norm_num
    · norm_num

/-- C5 witness: the invariant theorem applied to a concrete record with 10
source bytes and executed ranges `[0,3)` and `[5,7)`. -/
theorem calculateCoverageEntry_invariant_witness :
    (calculateCoverageEntry sampleParse wRawEntry "https://p.com/").usedBytes
      + (calculateCoverageEntry sampleParse wRawEntry "https://p.com/").unusedBytes
      = ((calculateCoverageEntry sampleParse wRawEntry "https://p.com/").totalBytes : ℤ)
    ∧ 0 ≤ (calculateCoverageEntry sampleParse wRawEntry "https://p.com/").usagePercent
    ∧ (calculateCoverageEntry sampleParse wRawEntry "https://p.com/").usagePercent ≤ 100 :=
  calculateCoverageEntry_invariant sampleParse wRawEntry "https://p.com/"
    (by norm_num [wRawEntry, List.chain'_cons]) (by decide) (by decide) (by decide)

/-- C7: for two script records — `a` loading over 0–100ms and `b` over
110–250ms (a 10ms gap, inside the 50ms threshold) — `detectBundleChains`
with `minChainDepth = 2` and any `minChainTimeMs ≤ 250 = b.end − a.start`
yields exactly one chain of depth 2 with URLs `[a, b]` in order; moving
`b` to 160–250ms (a 60ms gap) yields no chains at the same thresholds. -/
theorem detectBundleChains_two_script_scenario (t : ℚ) (ht : t ≤ 250) :
    ((detectBundleChains [chainReqA, chainReqB10] 2 t).map (fun c => (c.depth, c.urls)))
      = [(2, ["a", "b"])]
    ∧ detectBundleChains [chainReqA, chainReqB60] 2 t = [] := by
  have hsA : sortedTimedScripts [chainReqA, chainReqB10] =
      [⟨"a", 0, 100, 50000⟩, ⟨"b", 110, 250, 80000⟩] := by
    norm_num [sortedTimedScripts, getRequestTiming, chainReqA, chainReqB10,
      List.insertionSort, List.orderedInsert, endTimeAscending]
  have hgrow : growChain [⟨"a", 0, 100, 50000⟩, ⟨"b", 110, 250, 80000⟩] 2
      ⟨"a", 0, 100, 50000⟩ [] =
      ([⟨"a", 0, 100, 50000⟩, ⟨"b", 110, 250, 80000⟩], ["b", "a"]) := by
    simp [growChain, findNextScript, CHAIN_GAP_THRESHOLD_MS, List.find?]
    all_goals norm_num
  have hsB : sortedTimedScripts [chainReqA, chainReqB60] =
      [⟨"a", 0, 100, 50000⟩, ⟨"b", 160, 250, 80000⟩] := by
    norm_num [sortedTimedScripts, getRequestTiming, chainReqA, chainReqB60,
      List.insertionSort, List.orderedInsert, endTimeAscending]
  have hgrowA : growChain [⟨"a", 0, 100, 50000⟩, ⟨"b", 160, 250, 80000⟩] 2
      ⟨"a", 0, 100, 50000⟩ [] = ([⟨"a", 0, 100, 50000⟩], ["a"]) := by
    simp [growChain, findNextScript, CHAIN_GAP_THRESHOLD_MS, List.find?]
    all_goals norm_num
  have hgrowB : growChain [⟨"a", 0, 100, 50000⟩, ⟨"b", 160, 250, 80000⟩] 2
      ⟨"b", 160, 250, 80000⟩ ["a"] = ([⟨"b", 160, 250, 80000⟩], ["b", "a"]) := by
    simp [growChain, findNextScript, CHAIN_GAP_THRESHOLD_MS, List.find?]
    all_goals norm_num
  constructor
  · simp only [detectBundleChains, hsA]
    simp [detectChainsLoop, hgrow]
    all_goals norm_num [ht]
  · simp only [detectBundleChains, hsB]
    simp [detectChainsLoop, hgrowA, hgrowB]

/-- C7 witness: the two-script scenario at the concrete threshold
`minChainTimeMs = 100`. -/
theorem detectBundleChains_two_script_scenario_witness :
    ((detectBundleChains [chainReqA, chainReqB10] 2 100).map (fun c => (c.depth, c.urls)))
      = [(2, ["a", "b"])]
    ∧ detectBundleChains [chainReqA, chainReqB60] 2 100 = [] :=
  detectBundleChains_two_script_scenario 100 (by norm_num)

/-- The sorted timed-script list only depends on the multiset of requests
when all resolved end times are distinct: a stable sort by a strict key is
uniquely determined. -/
theorem sortedTimedScripts_eq_of_perm (r1 r2 : List HTTPRequestInfo)
    (hperm : r1.Perm r2)
    (hnd : ((sortedTimedScripts r1).map ScriptTiming.endTimeMs).Nodup) :
    sortedTimedScripts r1 = sortedTimedScripts r2 := by
  have hp : List.Perm (sortedTimedScripts r1) (sortedTimedScripts r2) := by
    refine (List.perm_insertionSort _ _).trans (.trans ?_ (List.perm_insertionSort _ _).symm)
    exact List.Perm.filterMap _ (hperm.filter _)
  have hs1 : (sortedTimedScripts r1).Sorted endTimeAscending :=
    List.sorted_insertionSort _ _
  have hs2 : (sortedTimedScripts r2).Sorted endTimeAscending :=
    List.sorted_insertionSort _ _
  have hmp : List.Perm ((sortedTimedScripts r1).map ScriptTiming.endTimeMs)
      ((sortedTimedScripts r2).map ScriptTiming.endTimeMs) :=
    List.Perm.map ScriptTiming.endTimeMs hp
  have hnd2 : ((sortedTimedScripts r2).map ScriptTiming.endTimeMs).Nodup :=
    List.Perm.nodup hmp hnd
  have hstrict : ∀ (s : List ScriptTiming), s.Sorted endTimeAscending →
      ((s.map ScriptTiming.endTimeMs).Nodup) →
      s.Pairwise (fun a b => a.endTimeMs < b.endTimeMs) := by
    intro s hsort hnds
    rw [List.Nodup, List.pairwise_map] at hnds
    exact (hsort.and hnds).imp (fun h => lt_of_le_of_ne h.1 h.2)
  haveI : IsAntisymm ScriptTiming (fun a b => a.endTimeMs < b.endTimeMs) :=
    ⟨fun a b h1 h2 => absurd (h1.trans h2) (lt_irrefl _)⟩
  exact List.eq_of_perm_of_sorted hp
    (hstrict _ hs1 hnd) (hstrict _ hs2 hnd2)

/-- C4 (counterexample): full permutation invariance fails.  Scripts `pa`
and `pb` both end at 100ms (an end-time tie broken by input position in the
stable sort) and `pc` chains onto whichever is processed first, so the two
orderings of the same records produce chains with different URLs. -/
theorem detectBundleChains_order_dependent :
    List.Perm [permReqA, permReqB, permReqC] [permReqB, permReqA, permReqC]
    ∧ (detectBundleChains [permReqA, permReqB, permReqC] 2 0).map (fun c => c.urls)
      ≠ (detectBundleChains [permReqB, permReqA, permReqC] 2 0).map (fun c => c.urls) := by
  have hs1 : sortedTimedScripts [permReqA, permReqB, permReqC] =
      [⟨"pa", 0, 100, 10⟩, ⟨"pb", 0, 100, 10⟩, ⟨"pc", 110, 300, 10⟩] := by
    norm_num [sortedTimedScripts, getRequestTiming, permReqA, permReqB, permReqC,
      List.insertionSort, List.orderedInsert, endTimeAscending]
  have hs2 : sortedTimedScripts [permReqB, permReqA, permReqC] =
      [⟨"pb", 0, 100, 10⟩, ⟨"pa", 0, 100, 10⟩, ⟨"pc", 110, 300, 10⟩] := by
    norm_num [sortedTimedScripts, getRequestTiming, permReqA, permReqB, permReqC,
      List.insertionSort, List.orderedInsert, endTimeAscending]
  have hg1 : growChain [⟨"pa", 0, 100, 10⟩, ⟨"pb", 0, 100, 10⟩, ⟨"pc", 110, 300, 10⟩] 3
      ⟨"pa", 0, 100, 10⟩ [] =
      ([⟨"pa", 0, 100, 10⟩, ⟨"pc", 110, 300, 10⟩], ["pc", "pa"]) := by
    simp [growChain, findNextScript, CHAIN_GAP_THRESHOLD_MS, List.find?]
    all_goals norm_num
  have hg1b : growChain [⟨"pa", 0, 100, 10⟩, ⟨"pb", 0, 100, 10⟩, ⟨"pc", 110, 300, 10⟩] 3
      ⟨"pb", 0, 100, 10⟩ ["pc", "pa"] =
      ([⟨"pb", 0, 100, 10⟩], ["pb", "pc", "pa"]) := by
    simp [growChain, findNextScript, CHAIN_GAP_THRESHOLD_MS, List.find?]
    all_goals norm_num
  have hg2 : growChain [⟨"pb", 0, 100, 10⟩, ⟨"pa", 0, 100, 10⟩, ⟨"pc", 110, 300, 10⟩] 3
      ⟨"pb", 0, 100, 10⟩ [] =
      ([⟨"pb", 0, 100, 10⟩, ⟨"pc", 110, 300, 10⟩], ["pc", "pb"]) := by
    simp [growChain, findNextScript, CHAIN_GAP_THRESHOLD_MS, List.find?]
    all_goals norm_num
  have hg2b : growChain [⟨"pb", 0, 100, 10⟩, ⟨"pa", 0, 100, 10⟩, ⟨"pc", 110, 300, 10⟩] 3
      ⟨"pa", 0, 100, 10⟩ ["pc", "pb"] =
      ([⟨"pa", 0, 100, 10⟩], ["pa", "pc", "pb"]) := by
    simp [growChain, findNextScript, CHAIN_GAP_THRESHOLD_MS, List.find?]
    all_goals norm_num
  refine ⟨List.Perm.swap permReqB permReqA [permReqC], ?_⟩
  have e1 : (detectBundleChains [permReqA, permReqB, permReqC] 2 0).map (fun c => c.urls)
      = [["pa", "pc"]] := by
    simp only [detectBundleChains, hs1]
    simp [detectChainsLoop, hg1, hg1b]
    all_goals norm_num
  have e2 : (detectBundleChains [permReqB, permReqA, permReqC] 2 0).map (fun c => c.urls)
      = [["pb", "pc"]] := by
    simp only [detectBundleChains, hs2]
    simp [detectChainsLoop, hg2, hg2b]
    all_goals norm_num
  rw [e1, e2]
  simp

/-- C4 (amended): `detectBundleChains` is independent of the input record
order whenever the timed script records have pairwise-distinct end times;
with end-time ties the stable sort falls back on input position, and the
counterexample above shows invariance genuinely fails there. -/
theorem detectBundleChains_perm_invariant (r1 r2 : List HTTPRequestInfo)
    (minChainDepth : ℕ) (minChainTimeMs : ℚ) (hperm : r1.Perm r2)
    (hnd : ((sortedTimedScripts r1).map ScriptTiming.endTimeMs).Nodup) :
    detectBundleChains r1 minChainDepth minChainTimeMs
      = detectBundleChains r2 minChainDepth minChainTimeMs := by
  have hs := sortedTimedScripts_eq_of_perm r1 r2 hperm hnd
  simp only [detectBundleChains, hs]

/-- C4 witness: order invariance applied to the two-script scenario (end
times 100 and 250, distinct) and its transposition. -/
theorem detectBundleChains_perm_invariant_witness :
    detectBundleChains [chainReqA, chainReqB10] 2 0
      = detectBundleChains [chainReqB10, chainReqA] 2 0 :=
  detectBundleChains_perm_invariant [chainReqA, chainReqB10] [chainReqB10, chainReqA] 2 0
    (List.Perm.swap chainReqB10 chainReqA [])
    (by norm_num [sortedTimedScripts, getRequestTiming, chainReqA, chainReqB10,
      List.insertionSort, List.orderedInsert, endTimeAscending])

/-- After growing a chain, the used-URL set equals the chain URLs (most
recent first) on top of the previous used set. -/
theorem growChain_used_eq (all : List ScriptTiming) :
    ∀ (fuel : ℕ) (cur : ScriptTiming) (used : List String),
      (growChain all fuel cur used).2
        = ((growChain all fuel cur used).1.map (fun s => s.url)).reverse ++ used := by
  intro fuel
  induction fuel with
  | zero => intro cur used; simp [growChain]
  | succ n ih =>
    intro cur used
    simp only [growChain]
    cases hf : findNextScript all (cur.url :: used) cur with
    | none => simp
    | some next =>
      simp only [ih next (cur.url :: used)]
      simp

/-- A chain grown from a not-yet-used script visits pairwise-distinct URLs,
none of which were already used: chain extension only ever picks
`find?`-results whose URL is absent from `usedUrls`. -/
theorem growChain_urls_fresh (all : List ScriptTiming) :
    ∀ (fuel : ℕ) (cur : ScriptTiming) (used : List String), cur.url ∉ used →
      ((growChain all fuel cur used).1.map (fun s => s.url)).Nodup
      ∧ ∀ x ∈ (growChain all fuel cur used).1.map (fun s => s.url), x ∉ used := by
  intro fuel
  induction fuel with
  | zero =>
    intro cur used h
    simp [growChain]
    exact h
  | succ n ih =>
    intro cur used hcur
    simp only [growChain]
    cases hf : findNextScript all (cur.url :: used) cur with
    | none =>
      simp [growChain]
      exact hcur
    | some next =>
      have hnext : next.url ∉ cur.url :: used := by
        simp only [findNextScript] at hf
        have hp := List.find?_some hf
        simp only [Bool.and_eq_true, Bool.not_eq_true'] at hp
        intro hmem
        have := List.elem_eq_true_of_mem hmem
        rw [show ((cur.url :: used).contains next.url) = List.elem next.url (cur.url :: used) from rfl] at hp
        rw [this] at hp
        simp at hp
      obtain ⟨ihn, ihf⟩ := ih next (cur.url :: used) hnext
      constructor
      · simp only [List.map_cons, List.nodup_cons]
        refine ⟨?_, ihn⟩
        intro hmem
        exact (ihf _ hmem) (List.mem_cons_self _ _)
      · intro x hx
        simp only [List.map_cons, List.mem_cons] at hx
        rcases hx with rfl | hx
        · exact hcur
        · intro hxu
          exact (ihf x hx) (List.mem_cons_of_mem _ hxu)

/-- Invariant of the outer detection loop: if the chains emitted so far
mention pairwise-distinct URLs, all of them recorded in `usedUrls`, then the
final chain list also mentions pairwise-distinct URLs. -/
theorem detectChainsLoop_nodup (all : List ScriptTiming) (d : ℕ) (t : ℚ) :
    ∀ (pending : List ScriptTiming) (used : List String) (chains : List BundleChain),
      ((chains.map (fun c => c.urls)).join).Nodup →
      (∀ x ∈ (chains.map (fun c => c.urls)).join, x ∈ used) →
      (((detectChainsLoop all d t pending used chains).1.map (fun c => c.urls)).join).Nodup := by
  intro pending
  induction pending with
  | nil =>
    intro used chains h1 _
    simpa [detectChainsLoop] using h1
  | cons s rest ih =>
    intro used chains h1 h2
    simp only [detectChainsLoop]
    by_cases hm : used.contains s.url = true
    · rw [if_pos hm]
      exact ih used chains h1 h2
    · rw [if_neg hm]
      have hs : s.url ∉ used := by
        intro hmem
        exact hm (List.elem_eq_true_of_mem hmem)
      obtain ⟨hnd, hfresh⟩ := growChain_urls_fresh all all.length s used hs
      have husedeq := growChain_used_eq all all.length s used
      have hmem' : ∀ x ∈ (chains.map (fun c => c.urls)).join,
          x ∈ (growChain all all.length s used).2 := by
        intro x hx
        rw [husedeq]
        exact List.mem_append_right _ (h2 x hx)
      have hchainmem : ∀ x ∈ (growChain all all.length s used).1.map (fun s => s.url),
          x ∈ (growChain all all.length s used).2 := by
        intro x hx
        rw [husedeq]
        exact List.mem_append_left _ (by simpa using hx)
      split
      · split
        · -- chain appended
          refine ih _ _ ?_ ?_
          · simp only [List.map_append, List.map_cons, List.map_nil, List.join_append,
              List.join_cons, List.join_nil, List.append_nil]
            rw [List.nodup_append]
            refine ⟨h1, hnd, ?_⟩
            intro x hx hx2
            exact hfresh x hx2 (h2 x hx)
          · intro x hx
            simp only [List.map_append, List.map_cons, List.map_nil, List.join_append,
              List.join_cons, List.join_nil, List.append_nil] at hx
            rcases List.mem_append.mp hx with hx | hx
            · exact hmem' x hx
            · exact hchainmem x hx
        · exact ih _ _ h1 hmem'
      · exact ih _ _ h1 hmem'

/-- C9: chain membership is tracked by URL.  Across all chains returned by
`detectBundleChains` combined, each distinct URL occurs at most once — so no
chain repeats a URL, and of two records sharing a URL at most one
contributes a node. -/
theorem detectBundleChains_urls_nodup (requests : List HTTPRequestInfo)
    (minChainDepth : ℕ) (minChainTimeMs : ℚ) :
    (((detectBundleChains requests minChainDepth minChainTimeMs).map
      (fun c => c.urls)).join).Nodup := by
  exact detectChainsLoop_nodup _ _ _ _ [] [] (by simp) (by simp)

/-- C10: the rendered output of `suggest_code_splits` is truncated.  For any
coverage entries and thresholds, at most 5 lazy-load advice entries
(`slice(0, 5)`) and at most 15 opportunity-table rows (`slice(0, 15)`) are
emitted; when more than 15 candidates qualify the remainder surfaces only as
the `...and N more opportunities` count. -/
theorem suggestCodeSplits_truncation (jsCoverage : List CoverageReportEntry)
    (minBundleSizeKB minUnusedPercent : ℚ) :
    (emittedLazyLoadAdvice (codeSplitCandidates jsCoverage minBundleSizeKB minUnusedPercent)).length ≤ 5
    ∧ (emittedOpportunityRows (codeSplitCandidates jsCoverage minBundleSizeKB minUnusedPercent)).length ≤ 15
    ∧ (15 < (codeSplitCandidates jsCoverage minBundleSizeKB minUnusedPercent).length →
        overflowNote (codeSplitCandidates jsCoverage minBundleSizeKB minUnusedPercent)
          = some ((codeSplitCandidates jsCoverage minBundleSizeKB minUnusedPercent).length - 15)) := by
  refine ⟨?_, ?_, ?_⟩
  · simp only [emittedLazyLoadAdvice, List.length_take]
    exact min_le_left _ _
  · simp only [emittedOpportunityRows, List.length_take]
    exact min_le_left _ _
  · intro h
    simp [overflowNote, h]

/-- C10 witness: the truncation theorem at sixteen qualifying 100KB
fully-unused entries, where the overflow count is emitted. -/
theorem suggestCodeSplits_truncation_witness :
    (emittedLazyLoadAdvice (codeSplitCandidates wManyEntries 0 0)).length ≤ 5
    ∧ (emittedOpportunityRows (codeSplitCandidates wManyEntries 0 0)).length ≤ 15
    ∧ overflowNote (codeSplitCandidates wManyEntries 0 0)
        = some ((codeSplitCandidates wManyEntries 0 0).length - 15) := by
  have h := suggestCodeSplits_truncation wManyEntries 0 0
  refine ⟨h.1, h.2.1, h.2.2 ?_⟩
  have hlen : (codeSplitCandidates wManyEntries 0 0).length = 16 := by
    simp [codeSplitCandidates, wManyEntries, List.length_insertionSort, List.replicate]
    norm_num [List.filterMap_cons]
  omega
